import Mathlib

/-!
Shallow embedding of `src/server.py` (anki-mcp): the AnkiConnect transport,
the HTML highlighting utility, and the four MCP tool operations.

Strings are Lean `String`s; decoded JSON values are `JVal`; the remote
service is a function from calls to outcomes; the add-card tool returns its
result mapping together with the ordered trace of remote calls it issued.
-/

/-- JSON values as decoded by `json.loads`. -/
inductive JVal where
  | null
  | bool (b : Bool)
  | num (n : Int)
  | str (s : String)
  | arr (xs : List JVal)
  | obj (fields : List (String × JVal))

/-- Fields of a decoded JSON object, in insertion order. -/
abbrev Fields := List (String × JVal)

/-- Python truthiness of a JSON-decoded value. -/
def pyTruthy : JVal → Bool
  | .null => false
  | .bool b => b
  | .num n => n != 0
  | .str s => s != ""
  | .arr xs => !xs.isEmpty
  | .obj fs => !fs.isEmpty

/-- Python `d.get(k, dflt)` on a decoded JSON object. -/
def dictGet (fs : Fields) (k : String) (dflt : JVal) : JVal :=
  match fs.find? (fun f => f.1 == k) with
  | some f => f.2
  | none => dflt

/-- Python `k in d` on a decoded JSON object. -/
def hasKey (fs : Fields) (k : String) : Bool := fs.any (fun f => f.1 == k)

def jHasKey (v : JVal) (k : String) : Bool :=
  match v with
  | .obj fs => hasKey fs k
  | _ => false

/-- The ASCII apostrophe character, written via its code point. -/
def squote : Char := Char.ofNat 39

def squoteS : String := String.mk [squote]

def joinComma : List String → String
  | [] => ""
  | [s] => s
  | s :: rest => s ++ ", " ++ joinComma rest

/-- Python `repr` of a decoded JSON value, with explicit structural fuel.
The fuel bounds only the nesting depth (it is not consumed across the
elements of one list), so the fixed depth bound in `pyRepr` below covers
every value this development quantifies over. -/
def pyReprFuel : Nat → JVal → String
  | _, .null => "None"
  | _, .bool true => "True"
  | _, .bool false => "False"
  | _, .num n => toString n
  | _, .str s => squoteS ++ s ++ squoteS
  | 0, _ => ""
  | fuel + 1, .arr xs => "[" ++ joinComma (xs.map (pyReprFuel fuel)) ++ "]"
  | fuel + 1, .obj fs =>
      "\x7b" ++
        joinComma (fs.map (fun f => pyReprFuel fuel (.str f.1) ++ ": " ++ pyReprFuel fuel f.2)) ++
        "\x7d"

def pyRepr (v : JVal) : String := pyReprFuel 1000000 v

/-- Python `str` of a decoded JSON value, as interpolated by f-strings. -/
def pyStr : JVal → String
  | .str s => s
  | v => pyRepr v

/-- Python substring test `needle in hay` on characters. -/
def isSubList (needle : List Char) : List Char → Bool
  | [] => needle.isEmpty
  | c :: t => needle.isPrefixOf (c :: t) || isSubList needle t

/-- Python `needle in hay` on strings. -/
def strIn (needle hay : String) : Bool := isSubList needle.toList hay.toList

/-- Python `s.lower()` (ASCII case folding). -/
def pyLower (s : String) : String := String.mk (s.toList.map Char.toLower)

def isPySpace (c : Char) : Bool :=
  c == ' ' || c == '\t' || c == '\n' || c == '\r' || c.toNat == 11 || c.toNat == 12

/-- Python `s.strip()`. -/
def pyStrip (s : String) : String :=
  String.mk (((s.toList.dropWhile isPySpace).reverse.dropWhile isPySpace).reverse)

def splitWsAux : List Char → List Char → List String
  | [], cur => if cur.isEmpty then [] else [String.mk cur.reverse]
  | c :: rest, cur =>
    if isPySpace c then
      if cur.isEmpty then splitWsAux rest [] else String.mk cur.reverse :: splitWsAux rest []
    else splitWsAux rest (c :: cur)

/-- Python `s.split()`: split on whitespace runs, dropping empty pieces. -/
def pySplitWs (s : String) : List String := splitWsAux s.toList []

/-- RGB color mapping with keys Red, Green, Blue. -/
structure RGB where
  Red : Nat
  Green : Nat
  Blue : Nat
deriving DecidableEq

/-- Default highlight color RGB(255, 255, 180), light yellow. -/
def defaultColor : RGB := ⟨255, 255, 180⟩

/-- Python `"%02x" % n`: lowercase hex, zero-padded to width two. -/
def hexByte (n : Nat) : String :=
  let ds := Nat.toDigits 16 n
  String.mk (List.replicate (2 - ds.length) '0' ++ ds)

/-- The f-string building the 6-hex-digit color code. -/
def hexColor (c : RGB) : String := "#" ++ hexByte c.Red ++ hexByte c.Green ++ hexByte c.Blue

/-- The replacement text wrapping one highlight word in an inline-styled span. -/
def spanText (hex w : String) : String :=
  "<span style=\"background-color: " ++ hex ++ "\">" ++ w ++ "</span>"

/-- Case-insensitive character comparison (ASCII case folding, as relevant to
the ASCII patterns and caseless CJK text this server highlights). -/
def charIEq (a b : Char) : Bool := a.toLower == b.toLower

/-- Word characters for the `\b` boundary rule: ASCII alphanumerics and
underscore; non-ASCII characters are classed as word characters (the
non-ASCII text this server highlights is CJK letters, which Python's `re`
classes as word characters). -/
def isWordChar (c : Char) : Bool := c.isAlphanum || c == '_' || 127 < c.toNat

def isWordOpt : Option Char → Bool
  | none => false
  | some c => isWordChar c

/-- Case-insensitive literal prefix match; on success returns the matched
text characters (original casing) and the rest. -/
def splitPrefixCI : List Char → List Char → Option (List Char × List Char)
  | [], rest => some ([], rest)
  | _ :: _, [] => none
  | w :: ws, t :: ts =>
    if charIEq w t then
      match splitPrefixCI ws ts with
      | some (m, r) => some (t :: m, r)
      | none => none
    else none

/-- One attempted match at the current position; `useB` adds the word
boundary requirement at both ends, `prev` is the character just before the
current position. -/
def tryMatch (useB : Bool) (word : List Char) (prev : Option Char) (text : List Char) :
    Option (List Char × List Char) :=
  match splitPrefixCI word text with
  | none => none
  | some (m, r) =>
    if useB then
      let lastC : Option Char :=
        match m.getLast? with
        | some c => some c
        | none => prev
      if (isWordOpt prev != isWordOpt text.head?) && (isWordOpt lastC != isWordOpt r.head?) then
        some (m, r)
      else none
    else some (m, r)

/-- Left-to-right non-overlapping substitution, as `re.sub` performs on a
`re.escape`d literal pattern (optionally wrapped in `\b` boundaries) under
IGNORECASE. Structural fuel; `text.length` always suffices because every
step consumes at least one character. -/
def reSubFuel (useB : Bool) (word repl : List Char) : Nat → Option Char → List Char → List Char
  | 0, _, text => text
  | _ + 1, _, [] => []
  | fuel + 1, prev, t :: ts =>
    match tryMatch useB word prev (t :: ts) with
    | some ([], _) => repl ++ t :: reSubFuel useB word repl fuel (some t) ts
    | some (c :: m, r) => repl ++ reSubFuel useB word repl fuel (some (m.getLastD c)) r
    | none => t :: reSubFuel useB word repl fuel (some t) ts

def reSub (useB : Bool) (word repl text : List Char) : List Char :=
  reSubFuel useB word repl text.length none text

/-- `apply_highlight` from `server.py`. -/
def apply_highlight (text : String) (highlight_words : List String) (color : Option RGB) :
    String :=
  if highlight_words.isEmpty then text
  else
    let c := color.getD defaultColor
    let hex := hexColor c
    highlight_words.foldl
      (fun acc w =>
        let wl := w.toList
        let useB := !wl.any (fun ch => 127 < ch.toNat)
        String.mk (reSub useB wl (spanText hex w).toList acc.toList))
      text

/-- The endpoint resolved once at process start by `get_ankiconnect_url`.
The platform and environment probing in that function is I/O; it is
modelled by its documented loopback default. -/
def ANKICONNECT_URL : String := "http://127.0.0.1:8765"

/-- One remote call: action name and params object. -/
structure Call where
  action : String
  params : JVal

/-- Behaviour of one AnkiConnect HTTP exchange: the endpoint is unreachable
(URLError, with the underlying cause text), or a parsed JSON response
object arrives. -/
inductive RemoteOutcome where
  | unreachable (cause : String)
  | response (fields : Fields)

/-- A remote service: how it answers each call. -/
abbrev Remote := Call → RemoteOutcome

/-- Result of one `ankiconnect_request`: the returned response mapping, or
the message of the exception it raises. -/
inductive ReqResult where
  | ok (fields : Fields)
  | err (msg : String)

/-- The message of the exception raised in the URLError handler. -/
def connectFailMsg (cause : String) : String :=
  "Failed to connect to AnkiConnect at " ++ ANKICONNECT_URL ++
    ". Make sure Anki is running with AnkiConnect add-on enabled. Error: " ++ cause

/-- `ankiconnect_request` from `server.py`. On URLError the handler raises
the connect message directly; a truthy `error` field raises inside the try
block, so the generic handler wraps that message once more; otherwise the
full response mapping is returned. -/
def ankiconnect_request (out : RemoteOutcome) : ReqResult :=
  match out with
  | .unreachable cause => .err (connectFailMsg cause)
  | .response fs =>
    let e := dictGet fs "error" JVal.null
    if pyTruthy e then
      .err ("AnkiConnect request failed: AnkiConnect error: " ++ pyStr e)
    else .ok fs

def callRemote (remote : Remote) (c : Call) : ReqResult := ankiconnect_request (remote c)

/-- Python `s in container` for a string `s`; `none` is a raised TypeError. -/
def pyInStr (s : String) : JVal → Option Bool
  | .arr xs => some (xs.any (fun x => match x with | .str t => t == s | _ => false))
  | .str t => some (strIn s t)
  | .obj fs => some (hasKey fs s)
  | _ => none

/-- Python `len`; `none` is a raised TypeError. -/
def pyLen : JVal → Option Nat
  | .arr xs => some xs.length
  | .str s => some s.length
  | .obj fs => some fs.length
  | _ => none

/-- Python iteration over a decoded JSON value; `none` is a raised
TypeError; iterating a string yields its characters, an object its keys. -/
def iterElems : JVal → Option (List JVal)
  | .arr xs => some xs
  | .str s => some (s.toList.map (fun c => JVal.str (String.mk [c])))
  | .obj fs => some (fs.map (fun f => JVal.str f.1))
  | _ => none

def deckNamesCall : Call := ⟨"deckNames", JVal.obj []⟩

def modelNamesCall : Call := ⟨"modelNames", JVal.obj []⟩

def createDeckCall (deck : String) : Call := ⟨"createDeck", JVal.obj [("deck", JVal.str deck)]⟩

def findCall (action query : String) : Call := ⟨action, JVal.obj [("query", JVal.str query)]⟩

def addNoteCall (deck model front back : String) (tagList : List String) : Call :=
  ⟨"addNote", JVal.obj [("note", JVal.obj
    [("deckName", JVal.str deck), ("modelName", JVal.str model),
     ("fields", JVal.obj [("Front", JVal.str front), ("Back", JVal.str back)]),
     ("tags", JVal.arr (tagList.map JVal.str))])]⟩

/-- The best-effort deck ensure step of `add_anki_card`: its failures are
swallowed, so only the calls it issues matter. -/
def deckEnsureTrace (remote : Remote) (deck : String) : List Call :=
  match callRemote remote deckNamesCall with
  | .err _ => [deckNamesCall]
  | .ok fs =>
    match pyInStr deck (dictGet fs "result" (JVal.arr [])) with
    | some false => [deckNamesCall, createDeckCall deck]
    | _ => [deckNamesCall]

/-- The uniform failure mapping with the error message and success false. -/
def mkErrObj (m : String) : JVal :=
  JVal.obj [("error", JVal.str m), ("success", JVal.bool false)]

def modelNotFoundMsg (model : String) (avail : JVal) : String :=
  "Model " ++ squoteS ++ model ++ squoteS ++ " not found. Available models: " ++ pyStr avail

/-- The model validation step of `add_anki_card`: `some v` means the tool
returns `v` early; query failures are swallowed and the tool proceeds. -/
def modelCheck (remote : Remote) (model : String) : Option JVal :=
  match callRemote remote modelNamesCall with
  | .err _ => none
  | .ok fs =>
    let avail := dictGet fs "result" (JVal.arr [])
    match pyInStr model avail with
    | some false => some (mkErrObj (modelNotFoundMsg model avail))
    | _ => none

/-- Python `tags.strip().split() if tags.strip() else []`. -/
def tagListOf (tags : String) : List String :=
  if pyStrip tags == "" then [] else pySplitWs (pyStrip tags)

def connectHint : String :=
  "Failed to connect to AnkiConnect. Make sure Anki is running with AnkiConnect add-on enabled."

/-- The error-message normalization in the handler of `add_anki_card`. -/
def normalizeAddErr (m : String) : String :=
  if strIn "Failed to connect to AnkiConnect" m then connectHint
  else if strIn "duplicate" (pyLower m) then "Duplicate card detected - card already exists"
  else if m == "" || pyStrip m == "" then "Unknown error occurred while adding card"
  else m

/-- `add_anki_card` from `server.py`; returns the result mapping together
with the ordered trace of remote calls issued during the invocation. -/
def add_anki_card (remote : Remote) (front back deck model tags : String)
    (highlight_front highlight_back : Option (List String)) (highlight_color : Option RGB) :
    JVal × List Call :=
  if front == "" then (JVal.obj [("error", JVal.str "Front side text is required")], [])
  else if back == "" then (JVal.obj [("error", JVal.str "Back side text is required")], [])
  else
    let front1 := match highlight_front with
      | some l => if l.isEmpty then front else apply_highlight front l highlight_color
      | none => front
    let back1 := match highlight_back with
      | some l => if l.isEmpty then back else apply_highlight back l highlight_color
      | none => back
    let t1 := deckEnsureTrace remote deck
    match modelCheck remote model with
    | some v => (v, t1 ++ [modelNamesCall])
    | none =>
      let noteCall := addNoteCall deck model front1 back1 (tagListOf tags)
      match callRemote remote noteCall with
      | .err m => (mkErrObj (normalizeAddErr m), t1 ++ [modelNamesCall, noteCall])
      | .ok fs =>
        let nid := dictGet fs "result" JVal.null
        if pyTruthy nid then
          (JVal.obj [("success", JVal.bool true), ("note_id", nid),
            ("front", JVal.str front1), ("back", JVal.str back1),
            ("deck", JVal.str deck), ("model", JVal.str model), ("tags", JVal.str tags),
            ("highlighted_words_front", JVal.arr ((highlight_front.getD []).map JVal.str)),
            ("highlighted_words_back", JVal.arr ((highlight_back.getD []).map JVal.str)),
            ("message", JVal.str ("Successfully added card to deck " ++ squoteS ++ deck ++ squoteS))],
           t1 ++ [modelNamesCall, noteCall])
        else (mkErrObj "Failed to add note - no note ID returned", t1 ++ [modelNamesCall, noteCall])

/-- The per-deck entry recorded when that deck's statistics lookup fails. -/
def unknownEntry (d : JVal) : JVal :=
  JVal.obj [("name", d), ("card_count", JVal.str "unknown"), ("note_count", JVal.str "unknown")]

/-- The quoted query f-string scoped to one deck. -/
def deckQueryOf (d : JVal) : String := "\"deck:" ++ pyStr d ++ "\""

/-- The per-deck statistics lookup of `list_anki_decks`; any failure inside
it yields the unknown entry for that deck. -/
def deckStat (remote : Remote) (d : JVal) : JVal :=
  match callRemote remote (findCall "findCards" (deckQueryOf d)) with
  | .err _ => unknownEntry d
  | .ok fs1 =>
    match callRemote remote (findCall "findNotes" (deckQueryOf d)) with
    | .err _ => unknownEntry d
    | .ok fs2 =>
      match pyLen (dictGet fs1 "result" (JVal.arr [])),
            pyLen (dictGet fs2 "result" (JVal.arr [])) with
      | some cc, some nc =>
        JVal.obj [("name", d), ("card_count", JVal.num cc), ("note_count", JVal.num nc)]
      | _, _ => unknownEntry d

/-- Insert or replace in a Python dict kept as an ordered field list. -/
def objUpsert : Fields → String → JVal → Fields
  | [], k, v => [(k, v)]
  | f :: fs, k, v => if f.1 == k then (k, v) :: fs else f :: objUpsert fs k v

def objLookup : Fields → String → Option JVal
  | [], _ => none
  | f :: fs, k => if f.1 == k then some f.2 else objLookup fs k

/-- Modelled: the text of the TypeError CPython raises when a tool
operation iterates or takes the length of an unsized response value. -/
def typeErrText : String := "TypeError"

/-- The error-message normalization shared by the three listing tools:
`str(e) or <default>`, then the connectivity hint substitution. -/
def normalizeListErr (m dflt : String) : String :=
  let m1 := if m == "" then dflt else m
  if strIn "Failed to connect to AnkiConnect" m1 then connectHint else m1

/-- `list_anki_decks` from `server.py`. -/
def list_anki_decks (remote : Remote) : JVal :=
  match callRemote remote deckNamesCall with
  | .err e => mkErrObj (normalizeListErr e "Unknown error occurred while retrieving decks")
  | .ok fs =>
    let decksV := dictGet fs "result" (JVal.arr [])
    match iterElems decksV with
    | none => mkErrObj (normalizeListErr typeErrText "Unknown error occurred while retrieving decks")
    | some ds =>
      let details := ds.foldl (fun acc d => objUpsert acc (pyStr d) (deckStat remote d)) []
      JVal.obj [("decks", decksV), ("deck_count", JVal.num ds.length),
        ("deck_details", JVal.obj details),
        ("message", JVal.str ("Found " ++ toString ds.length ++ " available decks"))]

/-- `list_anki_models` from `server.py`. -/
def list_anki_models (remote : Remote) : JVal :=
  match callRemote remote modelNamesCall with
  | .err e => mkErrObj (normalizeListErr e "Unknown error occurred while retrieving models")
  | .ok fs =>
    let models := dictGet fs "result" (JVal.arr [])
    match pyLen models with
    | none => mkErrObj (normalizeListErr typeErrText "Unknown error occurred while retrieving models")
    | some n =>
      JVal.obj [("models", models), ("model_count", JVal.num n),
        ("message", JVal.str ("Found " ++ toString n ++ " available note types/models"))]

/-- The optional wildcard-count step of `get_anki_info`, returning the pair
(total_cards, total_notes); its failures are swallowed, leaving whatever
was assigned before the failure. -/
def infoCounts (remote : Remote) : JVal × JVal :=
  let unk := JVal.str "unknown"
  match callRemote remote (findCall "findCards" "*") with
  | .err _ => (unk, unk)
  | .ok fc =>
    match callRemote remote (findCall "findNotes" "*") with
    | .err _ => (unk, unk)
    | .ok fn =>
      if hasKey fc "result" then
        match pyLen (dictGet fc "result" JVal.null) with
        | none => (unk, unk)
        | some nc =>
          if hasKey fn "result" then
            match pyLen (dictGet fn "result" JVal.null) with
            | none => (JVal.num nc, unk)
            | some nn => (JVal.num nc, JVal.num nn)
          else (JVal.num nc, unk)
      else
        if hasKey fn "result" then
          match pyLen (dictGet fn "result" JVal.null) with
          | none => (unk, unk)
          | some nn => (unk, JVal.num nn)
        else (unk, unk)

/-- `get_anki_info` from `server.py`. -/
def get_anki_info (remote : Remote) : JVal :=
  match callRemote remote deckNamesCall with
  | .err e => mkErrObj (normalizeListErr e "Unknown error occurred while retrieving collection info")
  | .ok fs1 =>
    match callRemote remote modelNamesCall with
    | .err e => mkErrObj (normalizeListErr e "Unknown error occurred while retrieving collection info")
    | .ok fs2 =>
      let ad := dictGet fs1 "result" (JVal.arr [])
      let am := dictGet fs2 "result" (JVal.arr [])
      match pyLen ad, pyLen am with
      | some td, some tm =>
        let counts := infoCounts remote
        JVal.obj [("total_notes", counts.2), ("total_cards", counts.1),
          ("total_decks", JVal.num td), ("total_models", JVal.num tm),
          ("available_decks", ad), ("available_models", am),
          ("message", JVal.str ("Anki collection contains " ++ pyStr counts.2 ++ " notes, " ++
            pyStr counts.1 ++ " cards across " ++ toString td ++ " decks"))]
      | _, _ =>
        mkErrObj (normalizeListErr typeErrText "Unknown error occurred while retrieving collection info")

/-! Helper lemmas shared by the claim theorems. -/

theorem modelCheck_eq_some (remote : Remote) (model : String) (v : JVal)
    (h : modelCheck remote model = some v) : ∃ m, v = mkErrObj m := by
  unfold modelCheck at h
  split at h
  · simp at h
  · simp only [] at h
    split at h
    · exact ⟨_, (Option.some.inj h).symm⟩
    · simp at h

theorem deckEnsureTrace_actions (remote : Remote) (deck : String) :
    ∀ c ∈ deckEnsureTrace remote deck, c.action = "deckNames" ∨ c.action = "createDeck" := by
  intro c hc
  unfold deckEnsureTrace at hc
  split at hc
  · simp at hc
    subst hc
    exact Or.inl rfl
  · split at hc
    · simp at hc
      rcases hc with hc | hc <;> subst hc
      · exact Or.inl rfl
      · exact Or.inr rfl
    · simp at hc
      subst hc
      exact Or.inl rfl

/-- Success mappings have no error key; failure mappings are `mkErrObj`. -/
def errShape (v : JVal) : Prop := ∃ m, v = mkErrObj m

def okShape (v : JVal) : Prop := jHasKey v "error" = false

/-- C2 counterexample: highlighting the word cat in the text containing the
Cat spelling produces a span whose inner text is the list's spelling cat,
not the matched occurrence's original Cat. -/
theorem C2_counterexample :
    apply_highlight "The Cat sat" ["cat"] none
      = "The <span style=\"background-color: #ffffb4\">cat</span> sat"
    ∧ apply_highlight "The Cat sat" ["cat"] none
      ≠ "The <span style=\"background-color: #ffffb4\">Cat</span> sat" := by
  exact ⟨rfl, by decide⟩

/-- C2 (amended): apply_highlight matches each word case-insensitively and
wraps every match in an inline-styled span with the hex color background;
the match is consumed whole and the replacement inserted verbatim, so the
text inside the span is the highlight word exactly as given in the list,
replacing the matched occurrence's original casing. -/
theorem C2_amended :
    (∀ repl : List Char,
      reSub true ("cat".toList) repl ("The Cat sat".toList)
        = "The ".toList ++ repl ++ " sat".toList)
    ∧ apply_highlight "The Cat sat" ["cat"] none
        = "The " ++ spanText "#ffffb4" "cat" ++ " sat"
    ∧ spanText "#ffffb4" "cat" = "<span style=\"background-color: #ffffb4\">cat</span>" := by
  refine ⟨fun repl => ?_, rfl, rfl⟩
  rfl

/-- C3: an all-ASCII highlight word is substituted with the word-boundary
pattern, a word containing a non-ASCII character with the literal
substring pattern; a boundary-constrained word does not match inside a
longer word regardless of replacement, and the three concrete examples
from the specification hold. -/
theorem C3_boundary_dichotomy :
    (∀ (text w : String) (c : Option RGB),
      w.toList.any (fun ch => 127 < ch.toNat) = false →
      apply_highlight text [w] c
        = String.mk (reSub true w.toList
            (spanText (hexColor (c.getD defaultColor)) w).toList text.toList))
    ∧ (∀ (text w : String) (c : Option RGB),
      w.toList.any (fun ch => 127 < ch.toNat) = true →
      apply_highlight text [w] c
        = String.mk (reSub false w.toList
            (spanText (hexColor (c.getD defaultColor)) w).toList text.toList))
    ∧ (∀ repl : List Char, reSub true ("cat".toList) repl ("category".toList) = "category".toList)
    ∧ apply_highlight "The cat sat" ["cat"] none
        = "The <span style=\"background-color: #ffffb4\">cat</span> sat"
    ∧ apply_highlight "category" ["cat"] none = "category"
    ∧ apply_highlight "猫が好き" ["猫"] none
        = "<span style=\"background-color: #ffffb4\">猫</span>が好き" := by
  refine ⟨?_, ?_, fun repl => rfl, rfl, rfl, rfl⟩
  · intro text w c h
    simp only [String.toList] at h
    simp [apply_highlight, h]
  · intro text w c h
    simp only [String.toList] at h
    simp [apply_highlight, h]

/-- C3 witness: both sides of the dichotomy instantiated at concrete inputs. -/
theorem C3_boundary_dichotomy_witness :
    ("cat".toList.any (fun ch => 127 < ch.toNat) = false
      ∧ apply_highlight "xx cat yy" ["cat"] none
          = String.mk (reSub true "cat".toList
              (spanText (hexColor ((none : Option RGB).getD defaultColor)) "cat").toList
              "xx cat yy".toList))
    ∧ ("猫".toList.any (fun ch => 127 < ch.toNat) = true
      ∧ apply_highlight "猫が好き" ["猫"] none
          = String.mk (reSub false "猫".toList
              (spanText (hexColor ((none : Option RGB).getD defaultColor)) "猫").toList
              "猫が好き".toList)) :=
  ⟨⟨by decide, C3_boundary_dichotomy.1 "xx cat yy" "cat" none (by decide)⟩,
   ⟨by decide, C3_boundary_dichotomy.2.1 "猫が好き" "猫" none (by decide)⟩⟩

/-- C4 counterexample: a response whose error field is the empty string has
a non-null error field, yet ankiconnect_request returns the mapping instead
of raising. -/
theorem C4_counterexample :
    dictGet [("result", JVal.num 42), ("error", JVal.str "")] "error" JVal.null = JVal.str ""
    ∧ JVal.str "" ≠ JVal.null
    ∧ ankiconnect_request (.response [("result", JVal.num 42), ("error", JVal.str "")])
        = .ok [("result", JVal.num 42), ("error", JVal.str "")] :=
  ⟨rfl, nofun, rfl⟩

/-- C4 (amended): ankiconnect_request raises, with a message carrying the
response's error text, exactly when the error field is truthy (non-null and
non-empty); otherwise it returns the full response mapping rather than the
bare result value. -/
theorem C4_truthy_error (fs : Fields) :
    (pyTruthy (dictGet fs "error" JVal.null) = true →
      ankiconnect_request (.response fs)
        = .err ("AnkiConnect request failed: AnkiConnect error: "
            ++ pyStr (dictGet fs "error" JVal.null)))
    ∧ (pyTruthy (dictGet fs "error" JVal.null) = false →
      ankiconnect_request (.response fs) = .ok fs) := by
  constructor <;> intro h <;> simp [ankiconnect_request, h]

/-- C4 witness: both directions instantiated at concrete responses. -/
theorem C4_truthy_error_witness :
    (pyTruthy (dictGet [("error", JVal.str "oops")] "error" JVal.null) = true
      ∧ ankiconnect_request (.response [("error", JVal.str "oops")])
          = .err "AnkiConnect request failed: AnkiConnect error: oops")
    ∧ (pyTruthy (dictGet [("result", JVal.num 7)] "error" JVal.null) = false
      ∧ ankiconnect_request (.response [("result", JVal.num 7)])
          = .ok [("result", JVal.num 7)]) :=
  ⟨⟨rfl, (C4_truthy_error _).1 rfl⟩, ⟨rfl, (C4_truthy_error _).2 rfl⟩⟩

/-- C5: with an empty front the tool returns the front validation error
mapping and issues no remote call of any kind; with an empty back it
returns a validation error mapping (the front one when front is also
empty) and likewise issues no remote call. -/
theorem C5_empty_fields (remote : Remote) (front back deck model tags : String)
    (hF hB : Option (List String)) (hC : Option RGB) :
    add_anki_card remote "" back deck model tags hF hB hC
      = (JVal.obj [("error", JVal.str "Front side text is required")], [])
    ∧ ((add_anki_card remote front "" deck model tags hF hB hC).1
          = JVal.obj [("error", JVal.str "Front side text is required")]
        ∨ (add_anki_card remote front "" deck model tags hF hB hC).1
          = JVal.obj [("error", JVal.str "Back side text is required")])
    ∧ (add_anki_card remote front "" deck model tags hF hB hC).2 = [] := by
  refine ⟨rfl, ?_, ?_⟩ <;> by_cases h : front = ""
  · subst h
    exact Or.inl rfl
  · right
    simp [add_anki_card, h]
  · subst h
    rfl
  · simp [add_anki_card, h]

/-- C1 counterexample: the empty-front validation failure returns a mapping
with an error key but no success key at all. -/
theorem C1_counterexample :
    (add_anki_card (fun _ => RemoteOutcome.unreachable "x") "" "y" "English" "Basic" ""
        none none none).1
      = JVal.obj [("error", JVal.str "Front side text is required")]
    ∧ jHasKey (add_anki_card (fun _ => RemoteOutcome.unreachable "x") "" "y" "English" "Basic" ""
        none none none).1 "success" = false :=
  ⟨rfl, rfl⟩

/-- C1 (amended): for every behaviour of the remote service, each of the
four tool operations returns either a mapping without an error key (the
success fields) or the uniform mapping with error string and success false,
except that add_anki_card's empty-front and empty-back validation failures
return a mapping holding only the error message, with no success key. -/
theorem C1_result_shapes (remote : Remote) (front back deck model tags : String)
    (hF hB : Option (List String)) (hC : Option RGB) :
    (okShape (add_anki_card remote front back deck model tags hF hB hC).1
      ∨ errShape (add_anki_card remote front back deck model tags hF hB hC).1
      ∨ (add_anki_card remote front back deck model tags hF hB hC).1
          = JVal.obj [("error", JVal.str "Front side text is required")]
      ∨ (add_anki_card remote front back deck model tags hF hB hC).1
          = JVal.obj [("error", JVal.str "Back side text is required")])
    ∧ (okShape (list_anki_decks remote) ∨ errShape (list_anki_decks remote))
    ∧ (okShape (list_anki_models remote) ∨ errShape (list_anki_models remote))
    ∧ (okShape (get_anki_info remote) ∨ errShape (get_anki_info remote)) := by
  refine ⟨?_, ?_, ?_, ?_⟩
  · unfold add_anki_card
    split
    · right; right; left; rfl
    · split
      · right; right; right; rfl
      · simp only []
        split
        · rename_i v heq
          obtain ⟨m, hm⟩ := modelCheck_eq_some _ _ _ heq
          subst hm
          right; left; exact ⟨m, rfl⟩
        · split
          · right; left; exact ⟨_, rfl⟩
          · split
            · left; rfl
            · right; left; exact ⟨_, rfl⟩
  · unfold list_anki_decks
    split
    · right; exact ⟨_, rfl⟩
    · simp only []
      split
      · right; exact ⟨_, rfl⟩
      · left; rfl
  · unfold list_anki_models
    split
    · right; exact ⟨_, rfl⟩
    · simp only []
      split
      · right; exact ⟨_, rfl⟩
      · left; rfl
  · unfold get_anki_info
    split
    · right; exact ⟨_, rfl⟩
    · split
      · right; exact ⟨_, rfl⟩
      · simp only []
        split
        · left; rfl
        · right; exact ⟨_, rfl⟩


theorem ankiReq_result_ok (x : JVal) :
    ankiconnect_request (.response [("result", x)]) = .ok [("result", x)] := rfl

theorem any_str_eq_false (names : List String) (s : String) (h : s ∉ names) :
    ((names.map JVal.str).any fun x => match x with | JVal.str t => t == s | _ => false)
      = false := by
  rw [List.any_eq_false]
  intro x hx
  rcases List.mem_map.mp hx with ⟨t, ht, rfl⟩
  intro he
  have he2 : (t == s) = true := he
  exact h ((eq_of_beq he2) ▸ ht)

theorem any_str_eq_true (names : List String) (s : String) (h : s ∈ names) :
    ((names.map JVal.str).any fun x => match x with | JVal.str t => t == s | _ => false)
      = true := by
  rw [List.any_eq_true]
  refine ⟨JVal.str s, List.mem_map_of_mem _ h, ?_⟩
  have : (s == s) = true := beq_self_eq_true s
  exact this

theorem modelCheck_response_missing (remote : Remote) (model : String) (xs : List JVal)
    (h : remote modelNamesCall = .response [("result", JVal.arr xs)])
    (hb : (xs.any fun x => match x with | JVal.str t => t == model | _ => false) = false) :
    modelCheck remote model = some (mkErrObj (modelNotFoundMsg model (JVal.arr xs))) := by
  unfold modelCheck callRemote
  rw [h, ankiReq_result_ok]
  dsimp only []
  rw [show dictGet [("result", JVal.arr xs)] "result" (JVal.arr []) = JVal.arr xs from rfl]
  rw [show pyInStr model (JVal.arr xs)
      = some (xs.any fun x => match x with | JVal.str t => t == model | _ => false) from rfl]
  rw [hb]

theorem modelCheck_response_found (remote : Remote) (model : String) (xs : List JVal)
    (h : remote modelNamesCall = .response [("result", JVal.arr xs)])
    (hb : (xs.any fun x => match x with | JVal.str t => t == model | _ => false) = true) :
    modelCheck remote model = none := by
  unfold modelCheck callRemote
  rw [h, ankiReq_result_ok]
  dsimp only []
  rw [show dictGet [("result", JVal.arr xs)] "result" (JVal.arr []) = JVal.arr xs from rfl]
  rw [show pyInStr model (JVal.arr xs)
      = some (xs.any fun x => match x with | JVal.str t => t == model | _ => false) from rfl]
  rw [hb]

theorem deckEnsure_response_missing (remote : Remote) (deck : String) (xs : List JVal)
    (h : remote deckNamesCall = .response [("result", JVal.arr xs)])
    (hb : (xs.any fun x => match x with | JVal.str t => t == deck | _ => false) = false) :
    deckEnsureTrace remote deck = [deckNamesCall, createDeckCall deck] := by
  unfold deckEnsureTrace callRemote
  rw [h, ankiReq_result_ok]
  dsimp only []
  rw [show dictGet [("result", JVal.arr xs)] "result" (JVal.arr []) = JVal.arr xs from rfl]
  rw [show pyInStr deck (JVal.arr xs)
      = some (xs.any fun x => match x with | JVal.str t => t == deck | _ => false) from rfl]
  rw [hb]

/-- C6: with non-empty front and back, when the modelNames query succeeds
and its result list does not contain the requested model, add_anki_card
returns the uniform failure mapping (success false) whose message names the
model and lists the available models, and no addNote call is issued. -/
theorem C6_model_not_found (remote : Remote) (front back deck model tags : String)
    (hF hB : Option (List String)) (hC : Option RGB) (names : List String)
    (h1 : front ≠ "") (h2 : back ≠ "")
    (h3 : remote modelNamesCall = .response [("result", JVal.arr (names.map JVal.str))])
    (h4 : model ∉ names) :
    (add_anki_card remote front back deck model tags hF hB hC).1
      = mkErrObj ("Model " ++ squoteS ++ model ++ squoteS ++ " not found. Available models: "
          ++ pyRepr (JVal.arr (names.map JVal.str)))
    ∧ ∀ c ∈ (add_anki_card remote front back deck model tags hF hB hC).2,
        c.action ≠ "addNote" := by
  have e1 : (front == "") = false := beq_eq_false_iff_ne.mpr h1
  have e2 : (back == "") = false := beq_eq_false_iff_ne.mpr h2
  have hm := modelCheck_response_missing remote model (names.map JVal.str) h3
    (any_str_eq_false names model h4)
  unfold add_anki_card
  rw [e1, e2]
  simp only [Bool.false_eq_true, if_false]
  rw [hm]
  refine ⟨rfl, ?_⟩
  intro c hc
  simp only [List.mem_append, List.mem_singleton] at hc
  rcases hc with hc | hc
  · rcases deckEnsureTrace_actions remote deck c hc with ha | ha <;> rw [ha] <;> decide
  · rw [hc]
    decide

def c6remote : Remote := fun c =>
  if c.action == "modelNames" then .response [("result", JVal.arr [JVal.str "Basic"])]
  else .response [("result", JVal.arr [])]

/-- C6 witness: a remote knowing only the Basic model rejects another model
and the trace carries no addNote call. -/
theorem C6_model_not_found_witness :
    (add_anki_card c6remote "x" "y" "English" "Nope" "" none none none).1
      = mkErrObj ("Model " ++ squoteS ++ "Nope" ++ squoteS ++ " not found. Available models: "
          ++ pyRepr (JVal.arr (["Basic"].map JVal.str)))
    ∧ ∀ c ∈ (add_anki_card c6remote "x" "y" "English" "Nope" "" none none none).2,
        c.action ≠ "addNote" :=
  C6_model_not_found c6remote "x" "y" "English" "Nope" "" none none none ["Basic"]
    (by decide) (by decide) rfl (by decide)

/-- C9: with non-empty front and back, a deck list lacking the target deck
and a model list lacking the requested model, the invocation issues exactly
deckNames, then createDeck, then modelNames, in that order: the missing
deck is created as a remote side effect even though the invocation then
fails with the model-not-found error and never issues addNote. -/
theorem C9_deck_created_before_model_check (remote : Remote)
    (front back deck model tags : String) (hF hB : Option (List String)) (hC : Option RGB)
    (ds ms : List String)
    (h1 : front ≠ "") (h2 : back ≠ "")
    (h3 : remote deckNamesCall = .response [("result", JVal.arr (ds.map JVal.str))])
    (h4 : deck ∉ ds)
    (h5 : remote modelNamesCall = .response [("result", JVal.arr (ms.map JVal.str))])
    (h6 : model ∉ ms) :
    (add_anki_card remote front back deck model tags hF hB hC).2
      = [deckNamesCall, createDeckCall deck, modelNamesCall]
    ∧ (add_anki_card remote front back deck model tags hF hB hC).1
      = mkErrObj ("Model " ++ squoteS ++ model ++ squoteS ++ " not found. Available models: "
          ++ pyRepr (JVal.arr (ms.map JVal.str))) := by
  have e1 : (front == "") = false := beq_eq_false_iff_ne.mpr h1
  have e2 : (back == "") = false := beq_eq_false_iff_ne.mpr h2
  have hdeck := deckEnsure_response_missing remote deck (ds.map JVal.str) h3
    (any_str_eq_false ds deck h4)
  have hm := modelCheck_response_missing remote model (ms.map JVal.str) h5
    (any_str_eq_false ms model h6)
  unfold add_anki_card
  rw [e1, e2]
  simp only [Bool.false_eq_true, if_false]
  rw [hm, hdeck]
  exact ⟨rfl, rfl⟩

def c9remote : Remote := fun c =>
  if c.action == "deckNames" then .response [("result", JVal.arr [JVal.str "Default"])]
  else if c.action == "modelNames" then .response [("result", JVal.arr [JVal.str "Basic"])]
  else .response [("result", JVal.num 1)]

/-- C9 witness: a concrete remote lacking both the deck and the model. -/
theorem C9_deck_created_before_model_check_witness :
    (add_anki_card c9remote "x" "y" "English" "Nope" "" none none none).2
      = [deckNamesCall, createDeckCall "English", modelNamesCall]
    ∧ (add_anki_card c9remote "x" "y" "English" "Nope" "" none none none).1
      = mkErrObj ("Model " ++ squoteS ++ "Nope" ++ squoteS ++ " not found. Available models: "
          ++ pyRepr (JVal.arr (["Basic"].map JVal.str))) :=
  C9_deck_created_before_model_check c9remote "x" "y" "English" "Nope" "" none none none
    ["Default"] ["Basic"] (by decide) (by decide) rfl (by decide) rfl (by decide)

theorem ankiReq_ok_of_falsy (fs : Fields)
    (h : pyTruthy (dictGet fs "error" JVal.null) = false) :
    ankiconnect_request (.response fs) = .ok fs := by
  unfold ankiconnect_request
  dsimp only []
  rw [h]
  rfl

/-- C10: when the model check passes and the addNote call completes without
error but its result field is falsy (null, absent, or the number zero),
add_anki_card returns the missing-note-id failure mapping. -/
theorem C10_falsy_note_id (remote : Remote) (front back deck model tags : String)
    (hF hB : Option (List String)) (hC : Option RGB) (ms : List String) (rf : Fields)
    (h1 : front ≠ "") (h2 : back ≠ "")
    (h3 : remote modelNamesCall = .response [("result", JVal.arr (ms.map JVal.str))])
    (h4 : model ∈ ms)
    (h5 : ∀ c : Call, c.action = "addNote" → remote c = .response rf)
    (h6 : pyTruthy (dictGet rf "error" JVal.null) = false)
    (h7 : pyTruthy (dictGet rf "result" JVal.null) = false) :
    (add_anki_card remote front back deck model tags hF hB hC).1
      = mkErrObj "Failed to add note - no note ID returned" := by
  have e1 : (front == "") = false := beq_eq_false_iff_ne.mpr h1
  have e2 : (back == "") = false := beq_eq_false_iff_ne.mpr h2
  have hm := modelCheck_response_found remote model (ms.map JVal.str) h3
    (any_str_eq_true ms model h4)
  unfold add_anki_card callRemote
  rw [e1, e2]
  simp only [Bool.false_eq_true, if_false]
  rw [hm]
  dsimp only []
  rw [h5 _ rfl, ankiReq_ok_of_falsy rf h6]
  dsimp only []
  rw [h7]
  rfl

def c10remote : Remote := fun c =>
  if c.action == "modelNames" then .response [("result", JVal.arr [JVal.str "Basic"])]
  else .response [("result", JVal.num 0)]

/-- C10 witness: a remote answering addNote with error null and result 0;
the numeric identifier zero is reported as a failure. -/
theorem C10_falsy_note_id_witness :
    pyTruthy (dictGet [("result", JVal.num 0)] "result" JVal.null) = false
    ∧ (add_anki_card c10remote "x" "y" "English" "Basic" "" none none none).1
        = mkErrObj "Failed to add note - no note ID returned" :=
  ⟨rfl, C10_falsy_note_id c10remote "x" "y" "English" "Basic" "" none none none
    ["Basic"] [("result", JVal.num 0)] (by decide) (by decide) rfl (by decide)
    (fun c hc => by unfold c10remote; rw [hc]; rfl) rfl rfl⟩

/-- C7: when the addNote call raises with message m, the mapping returned
by add_anki_card normalizes m in this precedence order: the connectivity
phrase wins, then a case-insensitive duplicate substring, then empty or
whitespace-only messages, and every other message passes through. -/
theorem C7_error_normalization (remote : Remote) (front back deck model tags : String)
    (hF hB : Option (List String)) (hC : Option RGB) (ms : List String) (m : String)
    (h1 : front ≠ "") (h2 : back ≠ "")
    (h3 : remote modelNamesCall = .response [("result", JVal.arr (ms.map JVal.str))])
    (h4 : model ∈ ms)
    (h5 : ∀ c : Call, c.action = "addNote" → ankiconnect_request (remote c) = .err m) :
    (strIn "Failed to connect to AnkiConnect" m = true →
      (add_anki_card remote front back deck model tags hF hB hC).1 = mkErrObj connectHint)
    ∧ (strIn "Failed to connect to AnkiConnect" m = false →
      strIn "duplicate" (pyLower m) = true →
      (add_anki_card remote front back deck model tags hF hB hC).1
        = mkErrObj "Duplicate card detected - card already exists")
    ∧ (strIn "Failed to connect to AnkiConnect" m = false →
      strIn "duplicate" (pyLower m) = false →
      (m == "" || pyStrip m == "") = true →
      (add_anki_card remote front back deck model tags hF hB hC).1
        = mkErrObj "Unknown error occurred while adding card")
    ∧ (strIn "Failed to connect to AnkiConnect" m = false →
      strIn "duplicate" (pyLower m) = false →
      (m == "" || pyStrip m == "") = false →
      (add_anki_card remote front back deck model tags hF hB hC).1 = mkErrObj m) := by
  have e1 : (front == "") = false := beq_eq_false_iff_ne.mpr h1
  have e2 : (back == "") = false := beq_eq_false_iff_ne.mpr h2
  have hm := modelCheck_response_found remote model (ms.map JVal.str) h3
    (any_str_eq_true ms model h4)
  have hres : (add_anki_card remote front back deck model tags hF hB hC).1
      = mkErrObj (normalizeAddErr m) := by
    unfold add_anki_card callRemote
    rw [e1, e2]
    simp only [Bool.false_eq_true, if_false]
    rw [hm]
    dsimp only []
    rw [h5 _ rfl]
  refine ⟨?_, ?_, ?_, ?_⟩
  · intro hA
    rw [hres]
    unfold normalizeAddErr
    rw [hA]
    rfl
  · intro hA hD
    rw [hres]
    unfold normalizeAddErr
    rw [hA, hD]
    rfl
  · intro hA hD hE
    rw [hres]
    unfold normalizeAddErr
    rw [hA, hD, hE]
    rfl
  · intro hA hD hE
    rw [hres]
    unfold normalizeAddErr
    rw [hA, hD, hE]
    rfl

def c7remote : Remote := fun c =>
  if c.action == "modelNames" then .response [("result", JVal.arr [JVal.str "Basic"])]
  else .unreachable "boom"

/-- C7 witness: an unreachable endpoint during addNote produces a message
containing the connectivity phrase, which is normalized to the fixed hint. -/
theorem C7_error_normalization_witness :
    strIn "Failed to connect to AnkiConnect" (connectFailMsg "boom") = true
    ∧ (add_anki_card c7remote "x" "y" "English" "Basic" "" none none none).1
        = mkErrObj connectHint :=
  ⟨by decide,
   (C7_error_normalization c7remote "x" "y" "English" "Basic" "" none none none
      ["Basic"] (connectFailMsg "boom") (by decide) (by decide) rfl (by decide)
      (fun c hc => by unfold c7remote; rw [hc]; rfl)).1 (by decide)⟩

theorem deckStat_err (remote : Remote) (d : JVal)
    (h : (∃ e, callRemote remote (findCall "findCards" (deckQueryOf d)) = .err e)
       ∨ (∃ fs e, callRemote remote (findCall "findCards" (deckQueryOf d)) = .ok fs
           ∧ callRemote remote (findCall "findNotes" (deckQueryOf d)) = .err e)) :
    deckStat remote d = unknownEntry d := by
  unfold deckStat
  rcases h with ⟨e, he⟩ | ⟨fs, e, hok, he⟩
  · rw [he]
  · rw [hok, he]

theorem objLookup_upsert_self (fs : Fields) (k : String) (v : JVal) :
    objLookup (objUpsert fs k v) k = some v := by
  induction fs with
  | nil =>
    unfold objUpsert objLookup
    rw [if_pos (by simp)]
  | cons f fs ih =>
    unfold objUpsert
    by_cases h : (f.1 == k) = true
    · rw [if_pos h]
      unfold objLookup
      rw [if_pos (by simp)]
    · rw [if_neg h]
      unfold objLookup
      rw [if_neg h]
      exact ih

theorem objLookup_upsert_ne (fs : Fields) (k k2 : String) (v : JVal) (h : k2 ≠ k) :
    objLookup (objUpsert fs k v) k2 = objLookup fs k2 := by
  induction fs with
  | nil =>
    unfold objUpsert objLookup
    rw [if_neg (by simp [beq_iff_eq]; exact fun he => h he.symm)]
    rfl
  | cons f fs ih =>
    unfold objUpsert
    by_cases hf : (f.1 == k) = true
    · rw [if_pos hf]
      have hfk : f.1 = k := eq_of_beq hf
      unfold objLookup
      rw [if_neg (by simp [beq_iff_eq]; exact fun he => h he.symm),
          if_neg (by simp [beq_iff_eq, hfk]; exact fun he => h he.symm)]
    · rw [if_neg hf]
      unfold objLookup
      by_cases hf2 : (f.1 == k2) = true
      · rw [if_pos hf2, if_pos hf2]
      · rw [if_neg hf2, if_neg hf2]
        exact ih

theorem foldDetails_preserve (remote : Remote) (ds : List JVal) :
    ∀ (acc : Fields) (k : String) (v : JVal),
      objLookup acc k = some v →
      (∀ y ∈ ds, pyStr y = k → deckStat remote y = v) →
      objLookup (ds.foldl (fun a d => objUpsert a (pyStr d) (deckStat remote d)) acc) k
        = some v := by
  induction ds with
  | nil =>
    intro acc k v hacc _
    exact hacc
  | cons x ds ih =>
    intro acc k v hacc hv
    simp only [List.foldl_cons]
    apply ih
    · by_cases hk : pyStr x = k
      · rw [hk, objLookup_upsert_self, hv x (List.mem_cons_self x ds) hk]
      · rw [objLookup_upsert_ne _ _ _ _ (fun he => hk he.symm)]
        exact hacc
    · intro y hy hp
      exact hv y (List.mem_cons_of_mem _ hy) hp

theorem foldDetails_mem (remote : Remote) (ds : List JVal) (x : JVal) :
    x ∈ ds →
    (∀ y ∈ ds, pyStr y = pyStr x → deckStat remote y = deckStat remote x) →
    ∀ acc : Fields,
      objLookup (ds.foldl (fun a d => objUpsert a (pyStr d) (deckStat remote d)) acc) (pyStr x)
        = some (deckStat remote x) := by
  induction ds with
  | nil =>
    intro hx
    exact absurd hx (List.not_mem_nil x)
  | cons z ds ih =>
    intro hx hv acc
    simp only [List.foldl_cons]
    rcases List.mem_cons.mp hx with hxz | hxm
    · subst hxz
      apply foldDetails_preserve
      · exact objLookup_upsert_self _ _ _
      · intro y hy hp
        exact hv y (List.mem_cons_of_mem _ hy) hp
    · exact ih hxm (fun y hy hp => hv y (List.mem_cons_of_mem _ hy) hp) _

/-- C8: when deckNames succeeds, a failure of the per-deck statistics
queries for one deck leaves every deck name and the full deck count in the
result, with that deck's details entry holding unknown for both counts. -/
theorem C8_unknown_on_stat_failure (remote : Remote) (names : List String) (d : String)
    (h1 : remote deckNamesCall = .response [("result", JVal.arr (names.map JVal.str))])
    (h2 : d ∈ names)
    (h3 : (∃ e, callRemote remote (findCall "findCards" ("\"deck:" ++ d ++ "\"")) = .err e)
        ∨ (∃ fs e, callRemote remote (findCall "findCards" ("\"deck:" ++ d ++ "\"")) = .ok fs
            ∧ callRemote remote (findCall "findNotes" ("\"deck:" ++ d ++ "\"")) = .err e)) :
    ∃ D : Fields,
      list_anki_decks remote
        = JVal.obj [("decks", JVal.arr (names.map JVal.str)),
            ("deck_count", JVal.num names.length),
            ("deck_details", JVal.obj D),
            ("message", JVal.str ("Found " ++ toString names.length ++ " available decks"))]
      ∧ objLookup D d
          = some (JVal.obj [("name", JVal.str d), ("card_count", JVal.str "unknown"),
              ("note_count", JVal.str "unknown")]) := by
  have hstat : deckStat remote (JVal.str d) = unknownEntry (JVal.str d) :=
    deckStat_err remote (JVal.str d) h3
  have step : list_anki_decks remote
      = JVal.obj [("decks", JVal.arr (names.map JVal.str)),
          ("deck_count", JVal.num (names.map JVal.str).length),
          ("deck_details", JVal.obj ((names.map JVal.str).foldl
              (fun acc d2 => objUpsert acc (pyStr d2) (deckStat remote d2)) [])),
          ("message",
            JVal.str ("Found " ++ toString (names.map JVal.str).length ++ " available decks"))] := by
    unfold list_anki_decks callRemote
    rw [h1, ankiReq_result_ok]
    dsimp only []
    rw [show dictGet [("result", JVal.arr (names.map JVal.str))] "result" (JVal.arr [])
        = JVal.arr (names.map JVal.str) from rfl]
    rfl
  refine ⟨(names.map JVal.str).foldl
      (fun acc d2 => objUpsert acc (pyStr d2) (deckStat remote d2)) [], ?_, ?_⟩
  · rw [step, List.length_map]
  · have hx : JVal.str d ∈ names.map JVal.str := List.mem_map_of_mem _ h2
    have hcons : ∀ y ∈ names.map JVal.str, pyStr y = pyStr (JVal.str d) →
        deckStat remote y = deckStat remote (JVal.str d) := by
      intro y hy hp
      rcases List.mem_map.mp hy with ⟨t, ht, rfl⟩
      have htd : t = d := hp
      rw [htd]
    have hlook := foldDetails_mem remote (names.map JVal.str) (JVal.str d) hx hcons []
    rw [hstat] at hlook
    exact hlook

def c8remote : Remote := fun c =>
  if c.action == "deckNames" then .response [("result", JVal.arr [JVal.str "A", JVal.str "B"])]
  else
    match c.params with
    | JVal.obj [("query", JVal.str q)] =>
      if q == "\"deck:A\"" then .response [("result", JVal.arr [JVal.num 1])]
      else .unreachable "down"
    | _ => .unreachable "down"

/-- C8 witness: a remote with decks A and B where statistics for B fail. -/
theorem C8_unknown_on_stat_failure_witness :
    ∃ D : Fields,
      list_anki_decks c8remote
        = JVal.obj [("decks", JVal.arr (["A", "B"].map JVal.str)),
            ("deck_count", JVal.num (["A", "B"] : List String).length),
            ("deck_details", JVal.obj D),
            ("message",
              JVal.str ("Found " ++ toString (["A", "B"] : List String).length
                ++ " available decks"))]
      ∧ objLookup D "B"
          = some (JVal.obj [("name", JVal.str "B"), ("card_count", JVal.str "unknown"),
              ("note_count", JVal.str "unknown")]) :=
  C8_unknown_on_stat_failure c8remote ["A", "B"] "B" rfl (by decide)
    (Or.inl ⟨connectFailMsg "down", rfl⟩)
